/-
Verification of the adjoint-sensitivity (VJP) core and the legacy-export layer of
the tidy3d repository excerpt.

Shallow embedding conventions:
* Python floats are embedded as rationals (`ℚ`); complex numbers as pairs of
  rationals (`CRat`).
* Labeled numeric arrays (xarray `DataArray` / `JaxDataArray`) are embedded as
  `DataArrG`: an ordered list of dimension labels, a coordinate list per
  dimension, and a total valuation of multi-indices.
* Fallible operations (out-of-range `isel`, interpolation outside the convex
  hull / on under-resolved axes, `reshape` size mismatch, `linspace` with a
  negative count, division by a zero cell count) return `Option`/`none`,
  mirroring the Python exceptions or NaN poisoning.
* Functions keep the names of the Python functions they embed
  (`get_volume_disc` for `JaxMedium._get_volume_disc`, `field_contribution`,
  `store_vjp`, `old_json_structures`, ...).
-/
import Mathlib

set_option linter.unusedVariables false

/-! ## Basic value types -/

/-- The three spatial axes `x, y, z` (the string `"xyz"` iterated over in the source). -/
inductive Axis3 where
  | x
  | y
  | z
  deriving DecidableEq, Fintype

/-- Dimension labels of the field data arrays: three spatial axes and frequency `f`. -/
inductive Dim where
  | x
  | y
  | z
  | f
  deriving DecidableEq, Fintype

/-- The spatial dimension label corresponding to an axis. -/
def Axis3.dim : Axis3 → Dim
  | .x => Dim.x
  | .y => Dim.y
  | .z => Dim.z

/-- Complex numbers with rational parts: executable stand-in for Python complex floats. -/
structure CRat where
  re : ℚ
  im : ℚ
  deriving DecidableEq

instance : Add CRat := ⟨fun a b => ⟨a.re + b.re, a.im + b.im⟩⟩

instance : Mul CRat := ⟨fun a b => ⟨a.re * b.re - a.im * b.im, a.re * b.im + a.im * b.re⟩⟩

instance : SMul ℚ CRat := ⟨fun q a => ⟨q * a.re, q * a.im⟩⟩

/-! ## Labeled arrays (model of xarray `DataArray` over named dims `x, y, z, f`) -/

/-- A labeled array: ordered dimension labels, per-dimension coordinate vectors and a
total valuation of multi-indices (indices of dimensions not in `dims` are ignored by
the operations below). -/
structure DataArrG (α : Type) where
  dims : List Dim
  coords : Dim → List ℚ
  values : (Dim → ℕ) → α

/-- Complex-valued labeled array. -/
abbrev DataArr := DataArrG CRat

/-- Real-valued labeled array. -/
abbrev DataArrR := DataArrG ℚ

/-- Update one component of a multi-index. -/
def updIdx (i : Dim → ℕ) (d : Dim) (k : ℕ) : Dim → ℕ :=
  fun e => if e = d then k else i e

/-- Elementwise product of two arrays (xarray `e_fwd * e_adj`), under the co-registration
precondition of spec section 7: both operands carry the same dims and coordinates, so the
aligned product is the pointwise product on indices, with metadata taken from the left. -/
def amul (a b : DataArr) : DataArr :=
  { a with values := fun i => a.values i * b.values i }

/-- Elementwise real part (xarray `.real`). -/
def realArr (a : DataArr) : DataArrR :=
  { dims := a.dims, coords := a.coords, values := fun i => (a.values i).re }

/-- Positional selection (xarray `.isel(d=k)`): drops dimension `d`, fixing its index to
`k`; fails (Python `IndexError`) if `k` is out of range of the coordinate vector. -/
def isel {α : Type} (a : DataArrG α) (d : Dim) (k : ℕ) : Option (DataArrG α) :=
  if k < (a.coords d).length then
    some { dims := a.dims.filter (fun e => e ≠ d), coords := a.coords,
           values := fun i => a.values (updIdx i d k) }
  else
    none

/-- Iterated positional selection at index 0 (the `**isel_coords` expansion). -/
def iselZeros {α : Type} : DataArrG α → List Dim → Option (DataArrG α)
  | a, [] => some a
  | a, d :: rest => (isel a d 0).bind (fun b => iselZeros b rest)

/-- Index of the lower bracketing coordinate for target `t` in an ascending coordinate
list (clamped to the last interval). -/
def bracket : List ℚ → ℚ → ℕ
  | _ :: c2 :: rest, t => if t ≤ c2 then 0 else 1 + bracket (c2 :: rest) t
  | _, _ => 0

/-- One-dimensional linear interpolation of an array along dimension `d` onto
target coordinates `ts` (the per-axis step of xarray `.interp`). -/
def interpDim {α : Type} [Add α] [SMul ℚ α] (a : DataArrG α) (d : Dim) (ts : List ℚ) :
    DataArrG α :=
  { dims := a.dims,
    coords := fun e => if e = d then ts else a.coords e,
    values := fun i =>
      let cs := a.coords d
      let t := ts.getD (i d) 0
      let j := bracket cs t
      let c0 := cs.getD j 0
      let c1 := cs.getD (j + 1) 0
      let w := (t - c0) / (c1 - c0)
      (1 - w) • a.values (updIdx i d j) + w • a.values (updIdx i d (j + 1)) }

/-- Interpolation along dimension with source coordinates `cs` onto targets `ts` is
well-posed when the source axis has at least two samples (scipy requirement) and every
target lies inside the hull (outside targets produce NaN in xarray). -/
def interpOK (cs ts : List ℚ) : Bool :=
  decide (2 ≤ cs.length) &&
    ts.all (fun t => decide (cs.getD 0 0 ≤ t) && decide (t ≤ cs.getD (cs.length - 1) 0))

/-- Multilinear interpolation (xarray `.interp(**targets)`) realized as sequential
one-dimensional linear interpolation over the spatial dimensions, failing on
ill-posed axes. Dimensions with no targets are left untouched. -/
def interpFold {α : Type} [Add α] [SMul ℚ α] (tgts : Dim → Option (List ℚ)) :
    List Dim → DataArrG α → Option (DataArrG α)
  | [], a => some a
  | d :: rest, a =>
    match tgts d with
    | none => interpFold tgts rest a
    | some ts => if interpOK (a.coords d) ts then interpFold tgts rest (interpDim a d ts) else none

/-- Interpolate over the three spatial dimensions per the target map. -/
def interpAll {α : Type} [Add α] [SMul ℚ α] (a : DataArrG α) (tgts : Dim → Option (List ℚ)) :
    Option (DataArrG α) :=
  interpFold tgts [Dim.x, Dim.y, Dim.z] a

/-- Sum of an array over one dimension list starting from a base multi-index. -/
def sumGo (coords : Dim → List ℚ) (vals : (Dim → ℕ) → ℚ) : List Dim → (Dim → ℕ) → ℚ
  | [], i => vals i
  | d :: rest, i =>
    ((List.range (coords d).length).map (fun k => sumGo coords vals rest (updIdx i d k))).sum

/-- Sum of all entries of a real array (`jnp.sum(integrand.values)`). -/
def sumAll (a : DataArrR) : ℚ :=
  sumGo a.coords a.values a.dims (fun _ => 0)

/-- Row-major flattening of the entries of a real array (numpy `.values` raveling). -/
def flattenGo (coords : Dim → List ℚ) (vals : (Dim → ℕ) → ℚ) :
    List Dim → (Dim → ℕ) → List ℚ
  | [], i => [vals i]
  | d :: rest, i =>
    ((List.range (coords d).length).map (fun k => flattenGo coords vals rest (updIdx i d k))).flatten

/-- Row-major flattening of a real array. -/
def flattenVals (a : DataArrR) : List ℚ :=
  flattenGo a.coords a.values a.dims (fun _ => 0)

/-- Row-major linear index of a multi-index for the given dimension order. -/
def rowIndex (coords : Dim → List ℚ) : List Dim → (Dim → ℕ) → ℕ
  | [], _ => 0
  | d :: rest, i => i d * ((rest.map (fun e => (coords e).length)).prod) + rowIndex coords rest i

/-- numpy `reshape` of a flat list of reals into an array over the given dims and
coordinate vectors; fails unless the element counts agree. The resulting complex array
holds the real values (zero imaginary part), as the stored gradient dataset does. -/
def reshapeVals (flat : List ℚ) (dims : List Dim) (coords : Dim → List ℚ) : Option DataArr :=
  if flat.length = (dims.map (fun d => (coords d).length)).prod then
    some { dims := dims, coords := coords,
           values := fun i => ⟨flat.getD (rowIndex coords dims i) 0, 0⟩ }
  else
    none

/-! ## Bounds and the Volume Discretizer (`JaxMedium._get_volume_disc`) -/

/-- A pair of 3-vectors: minimum and maximum corner (tidy3d `Bound`). -/
structure Bound where
  rmin : Axis3 → ℚ
  rmax : Axis3 → ℚ

/-- Modelled from the spec: `Geometry.bounds_intersection` (the geometry component is
not part of this excerpt). Spec section 4.1: compute the axis-aligned intersection of
two bounds, i.e. the componentwise maximum of the minimum corners and componentwise
minimum of the maximum corners. -/
def bounds_intersection (b1 b2 : Bound) : Bound :=
  { rmin := fun a => max (b1.rmin a) (b2.rmin a),
    rmax := fun a => min (b1.rmax a) (b2.rmax a) }

/-- Python `int()` applied to a float: truncation toward zero. -/
def pyInt (q : ℚ) : ℤ :=
  if 0 ≤ q then ⌊q⌋ else ⌈q⌉

/-- `PTS_PER_WVL_INTEGRATION`: number of integration points per unit wavelength
in the material. -/
def PTS_PER_WVL_INTEGRATION : ℚ := 20

/-- `num_cells_dim = int(size * PTS_PER_WVL_INTEGRATION / wvl_mat) + 1`. -/
def cellCount (size wvl_mat : ℚ) : ℤ :=
  pyInt (size * PTS_PER_WVL_INTEGRATION / wvl_mat) + 1

/-- `d_len = size / num_cells_dim`. -/
def dLenOf (size wvl_mat : ℚ) : ℚ :=
  size / (cellCount size wvl_mat : ℚ)

/-- numpy `linspace(start, stop, num)`: `num` evenly spaced samples from `start` to
`stop` inclusive; fails (ValueError) for a negative sample count. -/
def linspace (start stop : ℚ) (num : ℤ) : Option (List ℚ) :=
  if num < 0 then none
  else if num = 1 then some [start]
  else some ((List.range num.toNat).map
    (fun i : ℕ => start + (stop - start) * (i : ℚ) / ((num : ℚ) - 1)))

/-- One iteration of the axis loop of `_get_volume_disc`: given the intersection edges
along one axis, either skip the axis (`size == 0`: no coordinates, unit volume factor)
or produce the cell-centered interpolation coordinates and the cell width `d_len`.
Fails when `num_cells_dim` is zero (Python `ZeroDivisionError`) or negative
(`np.linspace` ValueError). -/
def axisStep (min_edge max_edge wvl_mat : ℚ) : Option (Option (List ℚ) × ℚ) :=
  let size := max_edge - min_edge
  if size = 0 then some (none, 1)
  else
    let num_cells_dim := cellCount size wvl_mat
    if num_cells_dim = 0 then none
    else
      let d_len := size / (num_cells_dim : ℚ)
      match linspace (min_edge + d_len / 2) (max_edge - d_len / 2) num_cells_dim with
      | some coords_interp => some (some coords_interp, d_len)
      | none => none

/-- Field data handed to the VJP computation: the monitor's bounds
(`grad_data.monitor.geometry.bounds`) and the complex E-field component arrays
(`grad_data.field_components["Ex" | "Ey" | "Ez"]`, indexed here by their axis). -/
structure FieldData where
  monitor_bounds : Bound
  field_components : Axis3 → DataArr

/-- The per-axis sample coordinates of the discretized volume (`vol_coords` dict:
`none` marks an axis absent from the dict). -/
abbrev VolCoords := Axis3 → Option (List ℚ)

instance : DecidableEq VolCoords := fun g h =>
  decidable_of_iff (g Axis3.x = h Axis3.x ∧ g Axis3.y = h Axis3.y ∧ g Axis3.z = h Axis3.z)
    ⟨fun ⟨h1, h2, h3⟩ => funext fun a => by cases a <;> assumption,
     fun he => by rw [he]; exact ⟨rfl, rfl, rfl⟩⟩

/-- `JaxMedium._get_volume_disc`: intersect the monitor bounds with the simulation
bounds and assemble the per-axis interpolation coordinates and the differential volume
element, skipping axes of zero thickness. The three-axis loop is unrolled. -/
def get_volume_disc (grad_data : FieldData) (sim_bounds : Bound) (wvl_mat : ℚ) :
    Option (VolCoords × ℚ) := do
  let r := bounds_intersection grad_data.monitor_bounds sim_bounds
  let px ← axisStep (r.rmin Axis3.x) (r.rmax Axis3.x) wvl_mat
  let py ← axisStep (r.rmin Axis3.y) (r.rmax Axis3.y) wvl_mat
  let pz ← axisStep (r.rmin Axis3.z) (r.rmax Axis3.z) wvl_mat
  pure (fun a => match a with | Axis3.x => px.1 | Axis3.y => py.1 | Axis3.z => pz.1,
        1 * px.2 * py.2 * pz.2)

/-- The extent of the intersection of monitor and simulation bounds along one axis. -/
def intersectExtent (mnt sim : Bound) (a : Axis3) : ℚ :=
  (bounds_intersection mnt sim).rmax a - (bounds_intersection mnt sim).rmin a

/-! ## Media (`JaxMedium`, `JaxAnisotropicMedium`, `JaxCustomMedium`) -/

/-- `JaxMedium`: an isotropic medium with a differentiable relative permittivity.
The non-differentiable fields `conductivity` and `name` inherited from `Medium` are
carried to express that `copy(update=...)` preserves them. -/
structure JaxMedium where
  permittivity : ℚ
  conductivity : ℚ
  name : Option String
  deriving DecidableEq

/-- `JaxMedium(permittivity=v)`: construction with the pydantic defaults
(`conductivity = 0.0`, `name = None`) for every other field. -/
def JaxMedium.ofPermittivity (v : ℚ) : JaxMedium :=
  { permittivity := v, conductivity := 0, name := none }

/-- `JaxAnisotropicMedium`: three owned isotropic components on the diagonal. -/
structure JaxAnisotropicMedium where
  xx : JaxMedium
  yy : JaxMedium
  zz : JaxMedium
  name : Option String
  deriving DecidableEq

/-- `JaxCustomMedium`: a permittivity dataset with one complex-valued labeled array
per diagonal component (`eps_xx ↦ .x`, `eps_yy ↦ .y`, `eps_zz ↦ .z`). -/
structure JaxCustomMedium where
  eps_dataset : Axis3 → DataArr
  name : Option String

/-- `JaxMedium.field_contribution`: contribution to the VJP from one E-field
component. Discretizes the volume against the forward data's monitor region, forms
the real part of the elementwise forward-times-adjoint product, selects frequency
index 0, interpolates onto the volume coordinates, and returns the differential
volume times the sum (`d_vol * jnp.sum(integrand.values)`). -/
def field_contribution (field : Axis3) (grad_data_fwd grad_data_adj : FieldData)
    (sim_bounds : Bound) (wvl_mat : ℚ) : Option ℚ := do
  let vd ← get_volume_disc grad_data_fwd sim_bounds wvl_mat
  let e_fwd := grad_data_fwd.field_components field
  let e_adj := grad_data_adj.field_components field
  let e_dotted := realArr (amul e_fwd e_adj)
  let selected ← isel e_dotted Dim.f 0
  let integrand ← interpAll selected (fun d =>
    match d with
    | Dim.x => vd.1 Axis3.x
    | Dim.y => vd.1 Axis3.y
    | Dim.z => vd.1 Axis3.z
    | Dim.f => none)
  pure (vd.2 * sumAll integrand)

/-- `JaxMedium.store_vjp`: accumulate the three E-component contributions
(`vjp_permittivty = 0.0` then `+=` over `("Ex", "Ey", "Ez")`) and return a copy of
the medium with `permittivity` updated to the accumulated value. -/
def JaxMedium.store_vjp (m : JaxMedium) (grad_data_fwd grad_data_adj : FieldData)
    (sim_bounds : Bound) (wvl_mat : ℚ) : Option JaxMedium := do
  let cx ← field_contribution Axis3.x grad_data_fwd grad_data_adj sim_bounds wvl_mat
  let cy ← field_contribution Axis3.y grad_data_fwd grad_data_adj sim_bounds wvl_mat
  let cz ← field_contribution Axis3.z grad_data_fwd grad_data_adj sim_bounds wvl_mat
  pure { m with permittivity := 0 + cx + cy + cz }

/-- `JaxAnisotropicMedium.store_vjp`: for each tensor axis `a` compute the
single-field contribution of `"E" + a` and store it in a fresh `JaxMedium`
(`JaxMedium(permittivity=vjp_ii)`); return a copy of the medium with the three
components replaced. -/
def JaxAnisotropicMedium.store_vjp (m : JaxAnisotropicMedium)
    (grad_data_fwd grad_data_adj : FieldData) (sim_bounds : Bound) (wvl_mat : ℚ) :
    Option JaxAnisotropicMedium := do
  let vxx ← field_contribution Axis3.x grad_data_fwd grad_data_adj sim_bounds wvl_mat
  let vyy ← field_contribution Axis3.y grad_data_fwd grad_data_adj sim_bounds wvl_mat
  let vzz ← field_contribution Axis3.z grad_data_fwd grad_data_adj sim_bounds wvl_mat
  pure { m with xx := JaxMedium.ofPermittivity vxx,
                yy := JaxMedium.ofPermittivity vyy,
                zz := JaxMedium.ofPermittivity vzz }

/-- The spatial dimensions whose stored coordinate vector is degenerate
(`len(coords[dim_pt]) <= 1`), in the iteration order `"xyz"`. -/
def degenerateDims (coords : Dim → List ℚ) : List Dim :=
  [Dim.x, Dim.y, Dim.z].filter (fun d => (coords d).length ≤ 1)

/-- Interpolation targets of the custom-medium VJP: the dataset's own stored
coordinates, on the spatial dimensions with more than one sample
(`interp_coords = {dim_pt: coords[dim_pt] ... if len(coords[dim_pt]) > 1}`). -/
def interpTargets (coords : Dim → List ℚ) : Dim → Option (List ℚ) :=
  fun d =>
    match d with
    | Dim.f => none
    | _ => if 1 < (coords d).length then some (coords d) else none

/-- The body of the `for dim in "xyz"` loop of `JaxCustomMedium.store_vjp`: the VJP
array for one diagonal component `eps_aa`. Multiplies forward and adjoint `E{a}`,
selects frequency index 0 and index 0 of every degenerate axis, interpolates the
remaining axes onto the dataset's stored coordinates, scales the real part by the
fixed `d_vol = 1.0`, and reshapes to the coordinate-grid shape. -/
def customVjpComponent (m : JaxCustomMedium) (grad_data_fwd grad_data_adj : FieldData)
    (a : Axis3) : Option DataArr := do
  let orig_data_array := m.eps_dataset a
  let coords := orig_data_array.coords
  let e_fwd := grad_data_fwd.field_components a
  let e_adj := grad_data_adj.field_components a
  let prod := amul e_fwd e_adj
  let sel_f ← isel prod Dim.f 0
  let sel ← iselZeros sel_f (degenerateDims coords)
  let e_dotted ← interpAll sel (interpTargets coords)
  let d_vol : ℚ := 1
  let vjp_flat := (flattenVals (realArr e_dotted)).map (fun q => d_vol * q)
  reshapeVals vjp_flat orig_data_array.dims coords

/-- `JaxCustomMedium.store_vjp`: per-voxel gradient dataset. The `sim_bounds` and
`wvl_mat` arguments are accepted but unused by the body (the source disables the
`unused-argument` lint). -/
def JaxCustomMedium.store_vjp (m : JaxCustomMedium)
    (grad_data_fwd grad_data_adj : FieldData) (sim_bounds : Bound) (wvl_mat : ℚ) :
    Option JaxCustomMedium := do
  let gx ← customVjpComponent m grad_data_fwd grad_data_adj Axis3.x
  let gy ← customVjpComponent m grad_data_fwd grad_data_adj Axis3.y
  let gz ← customVjpComponent m grad_data_fwd grad_data_adj Axis3.z
  pure { m with eps_dataset := fun a =>
          match a with | Axis3.x => gx | Axis3.y => gy | Axis3.z => gz }

/-! ## Specification-side restatement of the Field Contribution Evaluator -/

/-- Written from the spec's words (section 4.2): obtain the per-axis coordinates and
differential volume by discretizing against the forward data's monitor region; form
the elementwise product of forward and adjoint field values and take the real part;
select the zeroth frequency index; interpolate onto the axis sample coordinates;
return differential volume times the sum of the interpolated samples. -/
def contributionSpec (field : Axis3) (fwd adj : FieldData) (sim_bounds : Bound)
    (wvl_mat : ℚ) : Option ℚ :=
  match get_volume_disc fwd sim_bounds wvl_mat with
  | none => none
  | some (axis_coords, differential_volume) =>
    let kernel := realArr (amul (fwd.field_components field) (adj.field_components field))
    match isel kernel Dim.f 0 with
    | none => none
    | some at_freq0 =>
      match interpAll at_freq0 (fun d =>
        match d with
        | Dim.x => axis_coords Axis3.x
        | Dim.y => axis_coords Axis3.y
        | Dim.z => axis_coords Axis3.z
        | Dim.f => none) with
      | none => none
      | some sampled => some (differential_volume * sumAll sampled)

/-! ## Pytree registration (flatten and unflatten) -/

/-- Modelled from the spec: `JaxObject.tree_flatten` (defined in the adjoint plugin's
`base` module, which is not part of this excerpt). Spec section 6: a flatten function
`(object) -> (ordered_leaf_values, static_metadata)`; for `JaxMedium` the single
`jax_field` leaf is the permittivity and the static metadata holds the remaining
fields. -/
def JaxMedium.tree_flatten (m : JaxMedium) : List ℚ × (ℚ × Option String) :=
  ([m.permittivity], (m.conductivity, m.name))

/-- Modelled from the spec: `JaxObject.tree_unflatten` for `JaxMedium` — rebuild the
object from the static metadata and the ordered leaves. -/
def JaxMedium.tree_unflatten (aux : ℚ × Option String) (leaves : List ℚ) : JaxMedium :=
  { permittivity := leaves.getD 0 1, conductivity := aux.1, name := aux.2 }

/-- Modelled from the spec: `JaxObject.tree_flatten` for `JaxAnisotropicMedium` — the
leaves of the three owned components in the order `xx, yy, zz`, with static metadata
for every non-leaf field. -/
def JaxAnisotropicMedium.tree_flatten (m : JaxAnisotropicMedium) :
    List ℚ × ((ℚ × Option String) × (ℚ × Option String) × (ℚ × Option String) × Option String) :=
  ([m.xx.permittivity, m.yy.permittivity, m.zz.permittivity],
    ((m.xx.conductivity, m.xx.name), (m.yy.conductivity, m.yy.name),
     (m.zz.conductivity, m.zz.name), m.name))

/-- Modelled from the spec: `JaxObject.tree_unflatten` for `JaxAnisotropicMedium`. -/
def JaxAnisotropicMedium.tree_unflatten
    (aux : (ℚ × Option String) × (ℚ × Option String) × (ℚ × Option String) × Option String)
    (leaves : List ℚ) : JaxAnisotropicMedium :=
  { xx := ⟨leaves.getD 0 1, aux.1.1, aux.1.2⟩,
    yy := ⟨leaves.getD 1 1, aux.2.1.1, aux.2.1.2⟩,
    zz := ⟨leaves.getD 2 1, aux.2.2.1.1, aux.2.2.1.2⟩,
    name := aux.2.2.2 }

/-- Modelled from the spec: `JaxObject.tree_flatten` for `JaxCustomMedium` — the
leaves are the three value arrays of the permittivity dataset in the order
`eps_xx, eps_yy, eps_zz`; the static metadata holds the dimension labels and
coordinate vectors of each component and the remaining fields. -/
def JaxCustomMedium.tree_flatten (m : JaxCustomMedium) :
    (((Dim → ℕ) → CRat) × ((Dim → ℕ) → CRat) × ((Dim → ℕ) → CRat)) ×
      ((List Dim × (Dim → List ℚ)) × (List Dim × (Dim → List ℚ)) ×
        (List Dim × (Dim → List ℚ)) × Option String) :=
  (((m.eps_dataset Axis3.x).values, (m.eps_dataset Axis3.y).values,
    (m.eps_dataset Axis3.z).values),
   (((m.eps_dataset Axis3.x).dims, (m.eps_dataset Axis3.x).coords),
    ((m.eps_dataset Axis3.y).dims, (m.eps_dataset Axis3.y).coords),
    ((m.eps_dataset Axis3.z).dims, (m.eps_dataset Axis3.z).coords), m.name))

/-- Modelled from the spec: `JaxObject.tree_unflatten` for `JaxCustomMedium`. -/
def JaxCustomMedium.tree_unflatten
    (aux : (List Dim × (Dim → List ℚ)) × (List Dim × (Dim → List ℚ)) ×
      (List Dim × (Dim → List ℚ)) × Option String)
    (leaves : ((Dim → ℕ) → CRat) × ((Dim → ℕ) → CRat) × ((Dim → ℕ) → CRat)) :
    JaxCustomMedium :=
  { eps_dataset := fun a =>
      match a with
      | Axis3.x => ⟨aux.1.1, aux.1.2, leaves.1⟩
      | Axis3.y => ⟨aux.2.1.1, aux.2.1.2, leaves.2.1⟩
      | Axis3.z => ⟨aux.2.2.1.1, aux.2.2.1.2, leaves.2.2⟩,
    name := aux.2.2.2 }

/-! ## Legacy export (`tidy3d_core/convert.py`) -/

/-- A 3-vector of rationals. -/
abbrev Vec3 := ℚ × ℚ × ℚ

/-- The geometry kinds inspected by `old_json_structures`; `unsupported` stands for
every other geometry class of the full object model (e.g. `GdsSlab`). -/
inductive GeometryT where
  | box (center size : Vec3)
  | sphere (center : Vec3) (radius : ℚ)
  | cylinder (center : Vec3) (axis : Axis3) (radius length : ℚ)
  | polySlab (vertices : List (ℚ × ℚ)) (slab_bounds : ℚ × ℚ)
  | unsupported
  deriving DecidableEq

/-- A structure of the simulation: its geometry and the index of its medium in the
deduplicated medium map (`medium_map[structure.medium]`). -/
structure Struct3d where
  mat_index : ℕ
  geometry : GeometryT
  deriving DecidableEq

/-- The lowercase axis name (`["x", "y", "z"][axis]`). -/
def axisName : Axis3 → String
  | Axis3.x => "x"
  | Axis3.y => "y"
  | Axis3.z => "z"

/-- A well-formed structure record of the legacy document: one shape per supported
geometry kind, with the fixed field set the source emits for it. -/
inductive StructJson where
  | box (name : String) (mat_index : ℕ) (x_cent y_cent z_cent x_span y_span z_span : ℚ)
  | sphere (name : String) (mat_index : ℕ) (x_cent y_cent z_cent radius : ℚ)
  | cylinder (name : String) (mat_index : ℕ) (x_cent y_cent z_cent : ℚ) (axis : String)
      (radius height : ℚ)
  | polySlab (name : String) (mat_index : ℕ) (vertices : List (ℚ × ℚ)) (z_cent z_size : ℚ)
  deriving DecidableEq

/-- The body of the structure loop of `old_json_structures`: the record appended for a
supported geometry kind, or nothing for an unsupported one (every `struct_list.append`
sits inside an `isinstance` branch). -/
def mkStructJson (istruct : ℕ) (s : Struct3d) : Option StructJson :=
  let nm := "struct_" ++ toString istruct
  match s.geometry with
  | GeometryT.box (cx, cy, cz) (sx, sy, sz) =>
    some (StructJson.box nm s.mat_index cx cy cz sx sy sz)
  | GeometryT.sphere (cx, cy, cz) r =>
    some (StructJson.sphere nm s.mat_index cx cy cz r)
  | GeometryT.cylinder (cx, cy, cz) ax r len =>
    some (StructJson.cylinder nm s.mat_index cx cy cz (axisName ax) r len)
  | GeometryT.polySlab verts (zlo, zhi) =>
    some (StructJson.polySlab nm s.mat_index verts ((zlo + zhi) / 2) (zhi - zlo))
  | GeometryT.unsupported => none

/-- `old_json_structures` (structure list only): enumerate the structures, naming each
record `struct_<original index>`, and emit records for supported geometry kinds. -/
def old_json_structures : ℕ → List Struct3d → List StructJson
  | _, [] => []
  | istruct, s :: rest =>
    match mkStructJson istruct s with
    | some j => j :: old_json_structures (istruct + 1) rest
    | none => old_json_structures (istruct + 1) rest

/-- The parameters of a `GaussianPulse` source time dependence. -/
structure GaussianPulseData where
  freq0 : ℚ
  fwidth : ℚ
  offset : ℚ
  phase : ℚ
  deriving DecidableEq

/-- The source-time kinds inspected by `old_json_sources`. -/
inductive SourceTimeShape where
  | gaussianPulse (g : GaussianPulseData)
  | unsupported
  deriving DecidableEq

/-- A source time dependence: every kind carries an amplitude
(`source.source_time.amplitude` is read independently of the kind test). -/
structure SourceTime where
  amplitude : ℚ
  shape : SourceTimeShape
  deriving DecidableEq

/-- Electric (`J`) or magnetic (`M`) current polarization prefix. -/
inductive JM where
  | currentJ
  | currentM
  deriving DecidableEq

/-- The source kinds inspected by `old_json_sources`; `unsupported` stands for kinds
such as `PointDipole`, `PlaneWave`, `GaussianBeam` or `ModeSource`. -/
inductive SourceKind where
  | volumeSource (center size : Vec3) (polarization : JM × Axis3)
  | unsupported
  deriving DecidableEq

/-- A source of the simulation. -/
structure Src3d where
  source_time : SourceTime
  kind : SourceKind
  deriving DecidableEq

/-- The emitted `source_time` sub-record (frequencies converted Hz to THz). -/
structure SrcTimeJson where
  frequency : ℚ
  fwidth : ℚ
  offset : ℚ
  phase : ℚ
  deriving DecidableEq

/-- An emitted source record (`type` is always `"VolumeSource"`). -/
structure SrcJson where
  name : String
  source_time : SrcTimeJson
  center : Vec3
  size : Vec3
  component : String
  amplitude : ℚ
  deriving DecidableEq

/-- The emitted polarization-component label:
`("E" if polarization[0] == "J" else "H") + polarization[1]`. -/
def componentName (pol : JM × Axis3) : String :=
  (match pol.1 with
   | JM.currentJ => "E"
   | JM.currentM => "H") ++ axisName pol.2

/-- The loop of `old_json_sources`, with the Python local-variable semantics made
explicit: `src_time` and `src` persist across iterations of the loop, so an
unsupported source-time kind leaves the previous `src_time` in scope and an
unsupported source kind leaves the previous `src` in scope —
`src_list.append(src)` runs unconditionally at the end of every iteration, and
reading a never-assigned `src_time` or `src` raises `NameError` (modelled `none`). -/
def old_json_sources_go :
    Option SrcTimeJson → Option SrcJson → List (String × Src3d) → Option (List SrcJson)
  | _, _, [] => some []
  | src_time, src, (nm, source) :: rest =>
    let src_time1 : Option SrcTimeJson :=
      match source.source_time.shape with
      | SourceTimeShape.gaussianPulse g =>
        some ⟨g.freq0 * (1 / 10 ^ 12), g.fwidth * (1 / 10 ^ 12), g.offset, g.phase⟩
      | SourceTimeShape.unsupported => src_time
    match source.kind with
    | SourceKind.volumeSource c s pol =>
      match src_time1 with
      | some st =>
        let src1 : SrcJson := ⟨nm, st, c, s, componentName pol, source.source_time.amplitude⟩
        (old_json_sources_go src_time1 (some src1) rest).map (fun l => src1 :: l)
      | none => none
    | SourceKind.unsupported =>
      match src with
      | some srcPrev => (old_json_sources_go src_time1 (some srcPrev) rest).map (fun l => srcPrev :: l)
      | none => none

/-- `old_json_sources`: export all sources of the simulation. -/
def old_json_sources (sources : List (String × Src3d)) : Option (List SrcJson) :=
  old_json_sources_go none none sources

/-- Field-component prefix: electric or magnetic. -/
inductive EH where
  | E
  | H
  deriving DecidableEq

/-- The monitor kinds inspected by `old_json_monitors`; `unsupported` stands for kinds
such as `ModeMonitor` or `PermittivityMonitor`. -/
inductive MonitorKind where
  | fieldTimeMonitor (fields : List (EH × Axis3))
  | fluxTimeMonitor
  | fieldMonitor (fields : List (EH × Axis3)) (freqs : List ℚ)
  | fluxMonitor (freqs : List ℚ)
  | unsupported
  deriving DecidableEq

/-- A monitor of the simulation. -/
structure Mnt3d where
  center : Vec3
  size : Vec3
  kind : MonitorKind
  deriving DecidableEq

/-- The kind-specific part of an emitted monitor record. -/
inductive MntPayload where
  | timeMonitor (t_start t_stop : ℚ) (t_step : Option ℚ) (store : List String)
  | frequencyMonitor (frequency : List ℚ) (store : List String) (interpolate : Bool)
  deriving DecidableEq

/-- An emitted monitor record: the base fields are always present; `payload` is `none`
exactly when no `isinstance` branch fired, i.e. the dict never received a `type` key. -/
structure MntJson where
  name : String
  x_cent : ℚ
  y_cent : ℚ
  z_cent : ℚ
  x_span : ℚ
  y_span : ℚ
  z_span : ℚ
  payload : Option MntPayload
  deriving DecidableEq

/-- The `store` list of a field monitor: `"E"` if any requested component starts with
`E`, then `"H"` if any starts with `H`. -/
def storeOf (fields : List (EH × Axis3)) : List String :=
  (if fields.any (fun p => p.1 = EH.E) then ["E"] else []) ++
    (if fields.any (fun p => p.1 = EH.H) then ["H"] else [])

/-- The body of the monitor loop of `old_json_monitors`: the base record is built for
every monitor and `mnt_list.append(mnt)` runs unconditionally, so an unsupported kind
still emits a record, just with no kind-specific payload. -/
def mkMntJson (run_time : ℚ) (nm : String) (m : Mnt3d) : MntJson :=
  { name := nm,
    x_cent := m.center.1, y_cent := m.center.2.1, z_cent := m.center.2.2,
    x_span := m.size.1, y_span := m.size.2.1, z_span := m.size.2.2,
    payload :=
      match m.kind with
      | MonitorKind.fieldTimeMonitor fields =>
        some (MntPayload.timeMonitor 0 run_time none (storeOf fields))
      | MonitorKind.fluxTimeMonitor =>
        some (MntPayload.timeMonitor 0 run_time none ["flux"])
      | MonitorKind.fieldMonitor fields freqs =>
        some (MntPayload.frequencyMonitor (freqs.map (fun fr => fr * (1 / 10 ^ 12)))
          (storeOf fields) true)
      | MonitorKind.fluxMonitor freqs =>
        some (MntPayload.frequencyMonitor (freqs.map (fun fr => fr * (1 / 10 ^ 12)))
          ["flux"] true)
      | MonitorKind.unsupported => none }

/-- `old_json_monitors`: export all monitors of the simulation. -/
def old_json_monitors (run_time : ℚ) (monitors : List (String × Mnt3d)) : List MntJson :=
  monitors.map (fun p => mkMntJson run_time p.1 p.2)

/-! ## Helper lemmas -/

lemma pyInt_of_nonneg {q : ℚ} (h : 0 ≤ q) : pyInt q = ⌊q⌋ := by
  simp [pyInt, h]

lemma linspace_length {a b : ℚ} {n : ℤ} {l : List ℚ} (h : linspace a b n = some l) :
    0 ≤ n ∧ (l.length : ℤ) = n := by
  unfold linspace at h
  split at h
  · exact absurd h (by simp)
  · rename_i hneg
    refine ⟨le_of_not_lt hneg, ?_⟩
    split at h
    · rename_i h1
      obtain rfl := Option.some.inj h
      simp [h1]
    · obtain rfl := Option.some.inj h
      simp [Int.toNat_of_nonneg (le_of_not_lt hneg)]

/-- The per-axis volume factor: `1` for a skipped (zero extent) axis, the cell width
`d_len` otherwise. -/
def dVolFactor (mnt sim : Bound) (w : ℚ) (b : Axis3) : ℚ :=
  if intersectExtent mnt sim b = 0 then 1 else dLenOf (intersectExtent mnt sim b) w

lemma axisStep_eq {mn mx w : ℚ} {p : Option (List ℚ) × ℚ}
    (h : axisStep mn mx w = some p) :
    (mx - mn = 0 ∧ p = (none, 1)) ∨
      (mx - mn ≠ 0 ∧
        ∃ l, linspace (mn + dLenOf (mx - mn) w / 2) (mx - dLenOf (mx - mn) w / 2)
            (cellCount (mx - mn) w) = some l ∧
          p = (some l, dLenOf (mx - mn) w) ∧ (l.length : ℤ) = cellCount (mx - mn) w) := by
  simp only [axisStep] at h
  split at h
  · rename_i hz
    left
    exact ⟨hz, by simpa using h.symm⟩
  · rename_i hz
    right
    refine ⟨hz, ?_⟩
    split at h
    · exact absurd h (by simp)
    · rename_i hcc
      split at h
      · rename_i l hls
        refine ⟨l, ?_, by simpa using h.symm, (linspace_length hls).2⟩
        simpa [dLenOf] using hls
      · exact absurd h (by simp)

lemma get_volume_disc_eq {gd : FieldData} {sb : Bound} {w : ℚ} {vc : VolCoords} {dv : ℚ}
    (h : get_volume_disc gd sb w = some (vc, dv)) :
    ∃ px py pz,
      axisStep ((bounds_intersection gd.monitor_bounds sb).rmin Axis3.x)
          ((bounds_intersection gd.monitor_bounds sb).rmax Axis3.x) w = some px ∧
      axisStep ((bounds_intersection gd.monitor_bounds sb).rmin Axis3.y)
          ((bounds_intersection gd.monitor_bounds sb).rmax Axis3.y) w = some py ∧
      axisStep ((bounds_intersection gd.monitor_bounds sb).rmin Axis3.z)
          ((bounds_intersection gd.monitor_bounds sb).rmax Axis3.z) w = some pz ∧
      vc = (fun a => match a with
        | Axis3.x => px.1
        | Axis3.y => py.1
        | Axis3.z => pz.1) ∧
      dv = 1 * px.2 * py.2 * pz.2 := by
  simp only [get_volume_disc, Option.bind_eq_bind] at h
  cases hx : axisStep ((bounds_intersection gd.monitor_bounds sb).rmin Axis3.x)
      ((bounds_intersection gd.monitor_bounds sb).rmax Axis3.x) w with
  | none => rw [hx] at h; exact absurd h (by simp)
  | some px =>
    cases hy : axisStep ((bounds_intersection gd.monitor_bounds sb).rmin Axis3.y)
        ((bounds_intersection gd.monitor_bounds sb).rmax Axis3.y) w with
    | none => rw [hx, hy] at h; exact absurd h (by simp)
    | some py =>
      cases hz : axisStep ((bounds_intersection gd.monitor_bounds sb).rmin Axis3.z)
          ((bounds_intersection gd.monitor_bounds sb).rmax Axis3.z) w with
      | none => rw [hx, hy, hz] at h; exact absurd h (by simp)
      | some pz =>
        rw [hx, hy, hz] at h
        simp only [Option.some_bind, pure] at h
        have hvd := Option.some.inj h
        exact ⟨px, py, pz, rfl, rfl, rfl,
          (congrArg Prod.fst hvd).symm, (congrArg Prod.snd hvd).symm⟩

lemma axisStep_count {mn mx w : ℚ} {p : Option (List ℚ) × ℚ} {l : List ℚ}
    (hw : 0 < w) (hE : 0 < mx - mn)
    (hp : axisStep mn mx w = some p) (hpl : p.1 = some l) :
    (l.length : ℤ) = ⌊(mx - mn) * PTS_PER_WVL_INTEGRATION / w⌋ + 1 := by
  have hnn : (0 : ℚ) ≤ (mx - mn) * PTS_PER_WVL_INTEGRATION / w :=
    le_of_lt (div_pos (mul_pos hE (by norm_num [PTS_PER_WVL_INTEGRATION])) hw)
  rcases axisStep_eq hp with ⟨h0, rfl⟩ | ⟨_, l2, _, rfl, hlen⟩
  · exact absurd h0 (ne_of_gt hE)
  · obtain rfl := Option.some.inj hpl
    rw [hlen, cellCount, pyInt_of_nonneg hnn]

lemma axisStep_content {mn mx w : ℚ} {p : Option (List ℚ) × ℚ} {l : List ℚ}
    (hp : axisStep mn mx w = some p) (hpl : p.1 = some l) :
    mx - mn ≠ 0 ∧ (l.length : ℤ) = cellCount (mx - mn) w ∧
      linspace (mn + dLenOf (mx - mn) w / 2) (mx - dLenOf (mx - mn) w / 2)
        (cellCount (mx - mn) w) = some l := by
  rcases axisStep_eq hp with ⟨_, rfl⟩ | ⟨hne, l2, hls, rfl, hlen⟩
  · exact absurd hpl (by simp)
  · obtain rfl := Option.some.inj hpl
    exact ⟨hne, hlen, hls⟩

lemma axisStep_dvol {mn mx w : ℚ} {p : Option (List ℚ) × ℚ}
    (hp : axisStep mn mx w = some p) :
    p.2 = if mx - mn = 0 then 1 else dLenOf (mx - mn) w := by
  rcases axisStep_eq hp with ⟨h0, rfl⟩ | ⟨hne, l2, _, rfl, _⟩
  · simp [h0]
  · simp [hne]

lemma axisStep_skipped {mn mx w : ℚ} {p : Option (List ℚ) × ℚ}
    (hp : axisStep mn mx w = some p) (hpl : p.1 = none) : p.2 = 1 := by
  rcases axisStep_eq hp with ⟨_, rfl⟩ | ⟨_, l2, _, rfl, _⟩
  · rfl
  · exact absurd hpl (by simp)

section ClaimTheorems

attribute [local semireducible] Rat.add Rat.sub Rat.mul Rat.inv

/-! ## Claim C1 -/

/-- Claim C1: for every axis of the intersected integration volume with (positive)
nonzero extent `E` and every wavelength `W > 0`, `JaxMedium._get_volume_disc` chooses
the number of sample cells along that axis as exactly `floor(E * 20 / W) + 1`, with
`20` the fixed `PTS_PER_WVL_INTEGRATION` constant. -/
theorem C1_cell_count (gd : FieldData) (sb : Bound) (w : ℚ) (a : Axis3)
    (vc : VolCoords) (dv : ℚ) (l : List ℚ)
    (hw : 0 < w) (hE : 0 < intersectExtent gd.monitor_bounds sb a)
    (h : get_volume_disc gd sb w = some (vc, dv)) (hl : vc a = some l) :
    (l.length : ℤ) =
      ⌊intersectExtent gd.monitor_bounds sb a * PTS_PER_WVL_INTEGRATION / w⌋ + 1 := by
  obtain ⟨px, py, pz, hx, hy, hz, hvc, hdv⟩ := get_volume_disc_eq h
  subst hvc
  cases a with
  | x => exact axisStep_count hw hE hx hl
  | y => exact axisStep_count hw hE hy hl
  | z => exact axisStep_count hw hE hz hl

/-- A trivial (empty) data array used by concrete witnesses whose claims only involve
the monitor bounds. -/
def trivialArr : DataArr := ⟨[], fun _ => [], fun _ => ⟨0, 0⟩⟩

def gdC1w : FieldData := ⟨⟨fun _ => 0, fun _ => 1⟩, fun _ => trivialArr⟩

def sbC1w : Bound := ⟨fun _ => 0, fun _ => 1⟩

def vcC1w : VolCoords := fun a =>
  match a with
  | Axis3.x => some [1/6, 1/2, 5/6]
  | Axis3.y => some [1/6, 1/2, 5/6]
  | Axis3.z => some [1/6, 1/2, 5/6]

/-- Witness for `C1_cell_count`: a unit-cube overlap at wavelength 10 yields
`floor(1 * 20 / 10) + 1 = 3` cells per axis. -/
theorem C1_cell_count_witness :
    ((0:ℚ) < 10 ∧ 0 < intersectExtent gdC1w.monitor_bounds sbC1w Axis3.x ∧
      get_volume_disc gdC1w sbC1w 10 = some (vcC1w, 1/27) ∧
      vcC1w Axis3.x = some [1/6, 1/2, 5/6]) ∧
    (([1/6, 1/2, 5/6] : List ℚ).length : ℤ) =
      ⌊intersectExtent gdC1w.monitor_bounds sbC1w Axis3.x * PTS_PER_WVL_INTEGRATION / 10⌋ + 1 :=
  ⟨⟨by norm_num, by decide, by rfl, rfl⟩,
    C1_cell_count gdC1w sbC1w 10 Axis3.x vcC1w (1/27) [1/6, 1/2, 5/6]
      (by norm_num) (by decide) (by rfl) rfl⟩


/-! ## Claim C2 -/

lemma axisStep_zero {mn mx w : ℚ} {p : Option (List ℚ) × ℚ}
    (hp : axisStep mn mx w = some p) (h0 : mx - mn = 0) : p = (none, 1) := by
  rcases axisStep_eq hp with ⟨_, rfl⟩ | ⟨hne, _, _, _, _⟩
  · rfl
  · exact absurd h0 hne

def gdC2c : FieldData := ⟨⟨fun _ => 0, fun _ => 1⟩, fun _ => trivialArr⟩

def sbC2c : Bound :=
  ⟨fun a => match a with | Axis3.x => 2 | _ => 0,
   fun a => match a with | Axis3.x => 3 | _ => 1⟩

/-- Counterexample to claim C2 as stated: a monitor spanning `[0,1]` and a simulation
spanning `[2,3]` along `x` do not overlap on that axis; the intersection has negative
(not zero) thickness there, the `size == 0` test does not fire, and the discretization
fails (`np.linspace` with a negative sample count) instead of excluding the axis and
returning the remaining coordinates. -/
theorem C2_counterexample :
    (bounds_intersection gdC2c.monitor_bounds sbC2c).rmax Axis3.x <
      (bounds_intersection gdC2c.monitor_bounds sbC2c).rmin Axis3.x ∧
    get_volume_disc gdC2c sbC2c 1 = none :=
  ⟨by decide, by rfl⟩

/-- Claim C2 (amended): an axis along which the intersection of monitor and simulation
bounds has exactly zero thickness is excluded from the per-axis sample coordinates and
contributes no factor (a factor of one) to the differential volume; this zero-thickness
degenerate case is handled by exclusion, not by raising an error. When the bounds do
not overlap on an axis the intersection extent is negative, not zero, so that case lies
outside this exclusion; at the counterexample input the discretization fails outright
instead of excluding the axis. -/
theorem C2_degenerate_axis (gd : FieldData) (sb : Bound) (w : ℚ) (a : Axis3)
    (vc : VolCoords) (dv : ℚ)
    (hE : intersectExtent gd.monitor_bounds sb a = 0)
    (h : get_volume_disc gd sb w = some (vc, dv)) :
    vc a = none ∧ dVolFactor gd.monitor_bounds sb w a = 1 ∧
      dv = dVolFactor gd.monitor_bounds sb w Axis3.x *
        dVolFactor gd.monitor_bounds sb w Axis3.y *
        dVolFactor gd.monitor_bounds sb w Axis3.z := by
  obtain ⟨px, py, pz, hx, hy, hz, hvc, hdv⟩ := get_volume_disc_eq h
  subst hvc
  have hfac : dv = dVolFactor gd.monitor_bounds sb w Axis3.x *
      dVolFactor gd.monitor_bounds sb w Axis3.y *
      dVolFactor gd.monitor_bounds sb w Axis3.z := by
    have h1 : dv = px.2 * py.2 * pz.2 := by rw [hdv, one_mul]
    rw [h1, axisStep_dvol hx, axisStep_dvol hy, axisStep_dvol hz]
    rfl
  have hone : dVolFactor gd.monitor_bounds sb w a = 1 := by
    simp [dVolFactor, hE]
  cases a with
  | x => exact ⟨by rw [show px = (none, 1) from axisStep_zero hx hE], hone, hfac⟩
  | y => exact ⟨by rw [show py = (none, 1) from axisStep_zero hy hE], hone, hfac⟩
  | z => exact ⟨by rw [show pz = (none, 1) from axisStep_zero hz hE], hone, hfac⟩

def gdC2w : FieldData :=
  ⟨⟨fun _ => 0, fun a => match a with | Axis3.z => 0 | _ => 1⟩, fun _ => trivialArr⟩

def sbC2w : Bound := ⟨fun _ => 0, fun _ => 1⟩

def vcC2w : VolCoords := fun a =>
  match a with
  | Axis3.x => some [1/6, 1/2, 5/6]
  | Axis3.y => some [1/6, 1/2, 5/6]
  | Axis3.z => none

/-- Witness for `C2_degenerate_axis`: a monitor flat along `z` yields coordinates only
for `x` and `y` and a differential area `1/9`. -/
theorem C2_degenerate_axis_witness :
    (intersectExtent gdC2w.monitor_bounds sbC2w Axis3.z = 0 ∧
      get_volume_disc gdC2w sbC2w 10 = some (vcC2w, 1/9)) ∧
    (vcC2w Axis3.z = none ∧ dVolFactor gdC2w.monitor_bounds sbC2w 10 Axis3.z = 1 ∧
      (1:ℚ)/9 = dVolFactor gdC2w.monitor_bounds sbC2w 10 Axis3.x *
        dVolFactor gdC2w.monitor_bounds sbC2w 10 Axis3.y *
        dVolFactor gdC2w.monitor_bounds sbC2w 10 Axis3.z) :=
  ⟨⟨by decide, by rfl⟩,
    C2_degenerate_axis gdC2w sbC2w 10 Axis3.z vcC2w (1/9) (by decide) (by rfl)⟩

/-! ## Claim C3 -/

/-- Claim C3: every contributing axis carries exactly `cell_count` cell-centered
sample coordinates, linearly spaced from `min + width/2` to `max - width/2` with
`width = extent / cell_count`; the differential volume is the product of the per-axis
cell widths over contributing axes (factor one for skipped axes), and equals `1.0`
when no axis contributes. -/
theorem C3_cell_centered (gd : FieldData) (sb : Bound) (w : ℚ)
    (vc : VolCoords) (dv : ℚ)
    (h : get_volume_disc gd sb w = some (vc, dv)) :
    (∀ a l, vc a = some l →
      intersectExtent gd.monitor_bounds sb a ≠ 0 ∧
      (l.length : ℤ) = cellCount (intersectExtent gd.monitor_bounds sb a) w ∧
      linspace ((bounds_intersection gd.monitor_bounds sb).rmin a +
          dLenOf (intersectExtent gd.monitor_bounds sb a) w / 2)
        ((bounds_intersection gd.monitor_bounds sb).rmax a -
          dLenOf (intersectExtent gd.monitor_bounds sb a) w / 2)
        (cellCount (intersectExtent gd.monitor_bounds sb a) w) = some l) ∧
    dv = dVolFactor gd.monitor_bounds sb w Axis3.x *
      dVolFactor gd.monitor_bounds sb w Axis3.y *
      dVolFactor gd.monitor_bounds sb w Axis3.z ∧
    ((vc Axis3.x = none ∧ vc Axis3.y = none ∧ vc Axis3.z = none) → dv = 1) := by
  obtain ⟨px, py, pz, hx, hy, hz, hvc, hdv⟩ := get_volume_disc_eq h
  subst hvc
  refine ⟨?_, ?_, ?_⟩
  · intro a l hl
    cases a with
    | x => exact axisStep_content hx hl
    | y => exact axisStep_content hy hl
    | z => exact axisStep_content hz hl
  · have h1 : dv = px.2 * py.2 * pz.2 := by rw [hdv, one_mul]
    rw [h1, axisStep_dvol hx, axisStep_dvol hy, axisStep_dvol hz]
    rfl
  · intro ⟨nx, ny, nz⟩
    rw [hdv, axisStep_skipped hx nx, axisStep_skipped hy ny, axisStep_skipped hz nz]
    norm_num

def gdC3w : FieldData := ⟨⟨fun _ => 0, fun _ => 1⟩, fun _ => trivialArr⟩

def sbC3w : Bound := ⟨fun _ => 0, fun _ => 1⟩

def vcC3w : VolCoords := fun a =>
  match a with
  | Axis3.x => some [1/4, 3/4]
  | Axis3.y => some [1/4, 3/4]
  | Axis3.z => some [1/4, 3/4]

/-- Witness for `C3_cell_centered`: unit cube at wavelength 20 gives two cells of
width `1/2` per axis, centered at `1/4` and `3/4`, and differential volume `1/8`. -/
theorem C3_cell_centered_witness :
    (get_volume_disc gdC3w sbC3w 20 = some (vcC3w, 1/8)) ∧
    (intersectExtent gdC3w.monitor_bounds sbC3w Axis3.x ≠ 0 ∧
      (([1/4, 3/4] : List ℚ).length : ℤ) =
        cellCount (intersectExtent gdC3w.monitor_bounds sbC3w Axis3.x) 20 ∧
      linspace ((bounds_intersection gdC3w.monitor_bounds sbC3w).rmin Axis3.x +
          dLenOf (intersectExtent gdC3w.monitor_bounds sbC3w Axis3.x) 20 / 2)
        ((bounds_intersection gdC3w.monitor_bounds sbC3w).rmax Axis3.x -
          dLenOf (intersectExtent gdC3w.monitor_bounds sbC3w Axis3.x) 20 / 2)
        (cellCount (intersectExtent gdC3w.monitor_bounds sbC3w Axis3.x) 20) =
        some [1/4, 3/4]) ∧
    (1:ℚ)/8 = dVolFactor gdC3w.monitor_bounds sbC3w 20 Axis3.x *
      dVolFactor gdC3w.monitor_bounds sbC3w 20 Axis3.y *
      dVolFactor gdC3w.monitor_bounds sbC3w 20 Axis3.z :=
  ⟨by rfl,
    (C3_cell_centered gdC3w sbC3w 20 vcC3w (1/8) (by rfl)).1 Axis3.x [1/4, 3/4] rfl,
    (C3_cell_centered gdC3w sbC3w 20 vcC3w (1/8) (by rfl)).2.1⟩


/-! ## Claim C4 -/

/-- Claim C4: for every field label, field data, simulation bounds and wavelength,
`JaxMedium.field_contribution` returns the differential volume times the sum of the
real part of the elementwise forward-times-adjoint product, taken at frequency index 0
and interpolated onto the per-axis sample coordinates obtained by discretizing against
the forward data's monitor region — that is, it coincides with the spec-side
composition `contributionSpec`. -/
theorem C4_field_contribution_formula :
    ∀ (field : Axis3) (fwd adj : FieldData) (sb : Bound) (w : ℚ),
      field_contribution field fwd adj sb w = contributionSpec field fwd adj sb w := by
  intro field fwd adj sb w
  unfold field_contribution contributionSpec
  simp only [Option.bind_eq_bind]
  cases get_volume_disc fwd sb w with
  | none => rfl
  | some vd =>
    simp only [Option.some_bind]
    cases isel (realArr (amul (fwd.field_components field) (adj.field_components field)))
        Dim.f 0 with
    | none => rfl
    | some sel =>
      simp only [Option.some_bind]
      cases interpAll sel (fun d =>
          match d with
          | Dim.x => vd.1 Axis3.x
          | Dim.y => vd.1 Axis3.y
          | Dim.z => vd.1 Axis3.z
          | Dim.f => none) with
      | none => rfl
      | some sampled => rfl

/-! ## Claim C5 -/

/-- Claim C5: `JaxMedium.store_vjp` returns a new medium identical to the input except
that its permittivity is the sum of the three field contributions for Ex, Ey and Ez
(`conductivity` and `name` are preserved by `copy(update=...)`); the embedding is
purely functional, so the input medium and field data are not mutated. -/
theorem C5_store_vjp_sum (m : JaxMedium) (fwd adj : FieldData) (sb : Bound) (w : ℚ)
    (cx cy cz : ℚ)
    (hx : field_contribution Axis3.x fwd adj sb w = some cx)
    (hy : field_contribution Axis3.y fwd adj sb w = some cy)
    (hz : field_contribution Axis3.z fwd adj sb w = some cz) :
    m.store_vjp fwd adj sb w = some { m with permittivity := cx + cy + cz } := by
  simp only [JaxMedium.store_vjp, Option.bind_eq_bind, hx, hy, hz, Option.some_bind,
    zero_add]
  rfl

/-- Monitor bounds of a point monitor. -/
def pointBound : Bound := ⟨fun _ => 0, fun _ => 0⟩

/-- A constant complex array over a single-voxel grid with one frequency. -/
def constArr (c : CRat) : DataArr :=
  ⟨[Dim.x, Dim.y, Dim.z, Dim.f],
   fun d => match d with
     | Dim.f => [5]
     | _ => [0],
   fun _ => c⟩

def fwdC5w : FieldData := ⟨pointBound, fun _ => constArr ⟨2, 0⟩⟩

def adjC5w : FieldData := ⟨pointBound, fun _ => constArr ⟨3, 0⟩⟩

def mC5w : JaxMedium := ⟨2, 1/2, some "med"⟩

/-- Witness for `C5_store_vjp_sum`: a point monitor with constant fields 2 and 3 gives
contribution 6 per component and total permittivity gradient 18. -/
theorem C5_store_vjp_sum_witness :
    (field_contribution Axis3.x fwdC5w adjC5w pointBound 1 = some 6 ∧
      field_contribution Axis3.y fwdC5w adjC5w pointBound 1 = some 6 ∧
      field_contribution Axis3.z fwdC5w adjC5w pointBound 1 = some 6) ∧
    mC5w.store_vjp fwdC5w adjC5w pointBound 1 = some ⟨6 + 6 + 6, 1/2, some "med"⟩ :=
  ⟨⟨by rfl, by rfl, by rfl⟩,
    C5_store_vjp_sum mC5w fwdC5w adjC5w pointBound 1 6 6 6 (by rfl) (by rfl) (by rfl)⟩

/-! ## Claim C6 -/

/-- Replace the Ez component array of field data, leaving the monitor bounds and the
Ex, Ey component arrays unchanged. -/
def setEz (fd : FieldData) (e : DataArr) : FieldData :=
  { fd with field_components := fun a =>
      match a with
      | Axis3.z => e
      | _ => fd.field_components a }

lemma field_contribution_setEz {a : Axis3} (ha : a ≠ Axis3.z) (fwd adj : FieldData)
    (e1 e2 : DataArr) (sb : Bound) (w : ℚ) :
    field_contribution a (setEz fwd e1) (setEz adj e2) sb w =
      field_contribution a fwd adj sb w := by
  cases a with
  | x => rfl
  | y => rfl
  | z => exact absurd rfl ha

/-- Claim C6: in `JaxAnisotropicMedium.store_vjp` the gradient stored for each diagonal
axis depends only on its own field component: two runs whose forward and adjoint data
agree on Ex and Ey but carry arbitrary different Ez components store equal xx and yy
gradients. -/
theorem C6_diagonal_independence (m : JaxAnisotropicMedium) (fwd adj : FieldData)
    (e1 e2 e3 e4 : DataArr) (sb : Bound) (w : ℚ) (r1 r2 : JaxAnisotropicMedium)
    (h1 : m.store_vjp (setEz fwd e1) (setEz adj e2) sb w = some r1)
    (h2 : m.store_vjp (setEz fwd e3) (setEz adj e4) sb w = some r2) :
    r1.xx.permittivity = r2.xx.permittivity ∧ r1.yy.permittivity = r2.yy.permittivity := by
  unfold JaxAnisotropicMedium.store_vjp at h1 h2
  rw [field_contribution_setEz (by simp) fwd adj e1 e2 sb w,
    field_contribution_setEz (by simp) fwd adj e1 e2 sb w] at h1
  rw [field_contribution_setEz (by simp) fwd adj e3 e4 sb w,
    field_contribution_setEz (by simp) fwd adj e3 e4 sb w] at h2
  cases hcx : field_contribution Axis3.x fwd adj sb w with
  | none => rw [hcx] at h1; exact absurd h1 (by simp)
  | some cx =>
    rw [hcx] at h1 h2
    simp only [Option.bind_eq_bind, Option.some_bind] at h1 h2
    cases hcy : field_contribution Axis3.y fwd adj sb w with
    | none => rw [hcy] at h1; exact absurd h1 (by simp)
    | some cy =>
      rw [hcy] at h1 h2
      simp only [Option.some_bind] at h1 h2
      cases hcz1 : field_contribution Axis3.z (setEz fwd e1) (setEz adj e2) sb w with
      | none => rw [hcz1] at h1; exact absurd h1 (by simp)
      | some cz1 =>
        rw [hcz1] at h1
        simp only [Option.some_bind] at h1
        cases hcz2 : field_contribution Axis3.z (setEz fwd e3) (setEz adj e4) sb w with
        | none => rw [hcz2] at h2; exact absurd h2 (by simp)
        | some cz2 =>
          rw [hcz2] at h2
          simp only [Option.some_bind] at h2
          obtain rfl := Option.some.inj h1
          obtain rfl := Option.some.inj h2
          exact ⟨rfl, rfl⟩


def fwdC6w : FieldData := ⟨pointBound, fun _ => constArr ⟨1, 0⟩⟩

def adjC6w : FieldData := ⟨pointBound, fun _ => constArr ⟨2, 0⟩⟩

def mC6w : JaxAnisotropicMedium := ⟨⟨1, 0, none⟩, ⟨1, 0, none⟩, ⟨1, 0, none⟩, some "aniso"⟩

def r1C6w : JaxAnisotropicMedium := ⟨⟨2, 0, none⟩, ⟨2, 0, none⟩, ⟨12, 0, none⟩, some "aniso"⟩

def r2C6w : JaxAnisotropicMedium := ⟨⟨2, 0, none⟩, ⟨2, 0, none⟩, ⟨30, 0, none⟩, some "aniso"⟩

/-- Witness for `C6_diagonal_independence`: two runs with Ez data `3*4` and `5*6`
store zz gradients 12 and 30 but identical xx and yy gradients 2. -/
theorem C6_diagonal_independence_witness :
    (mC6w.store_vjp (setEz fwdC6w (constArr ⟨3, 0⟩)) (setEz adjC6w (constArr ⟨4, 0⟩))
        pointBound 1 = some r1C6w ∧
      mC6w.store_vjp (setEz fwdC6w (constArr ⟨5, 0⟩)) (setEz adjC6w (constArr ⟨6, 0⟩))
        pointBound 1 = some r2C6w) ∧
    (r1C6w.xx.permittivity = r2C6w.xx.permittivity ∧
      r1C6w.yy.permittivity = r2C6w.yy.permittivity) :=
  ⟨⟨by rfl, by rfl⟩,
    C6_diagonal_independence mC6w fwdC6w adjC6w (constArr ⟨3, 0⟩) (constArr ⟨4, 0⟩)
      (constArr ⟨5, 0⟩) (constArr ⟨6, 0⟩) pointBound 1 r1C6w r2C6w (by rfl) (by rfl)⟩

/-! ## Claim C7 -/

lemma reshapeVals_meta {flat : List ℚ} {dims : List Dim} {coords : Dim → List ℚ}
    {g : DataArr} (h : reshapeVals flat dims coords = some g) :
    g.dims = dims ∧ g.coords = coords := by
  unfold reshapeVals at h
  split at h
  · obtain rfl := Option.some.inj h
    exact ⟨rfl, rfl⟩
  · exact absurd h (by simp)

lemma customVjpComponent_meta {m : JaxCustomMedium} {fwd adj : FieldData} {a : Axis3}
    {g : DataArr} (h : customVjpComponent m fwd adj a = some g) :
    g.dims = (m.eps_dataset a).dims ∧ g.coords = (m.eps_dataset a).coords := by
  simp only [customVjpComponent, Option.bind_eq_bind, Option.bind_eq_some] at h
  obtain ⟨s1, hs1, s2, hs2, s3, hs3, hre⟩ := h
  exact reshapeVals_meta hre

/-- Claim C7: for every custom medium, the per-component gradient of `store_vjp` is
computed by `customVjpComponent` (index-select at 0 along every axis whose stored
coordinate vector has length at most one, interpolation of the remaining axes onto the
dataset's own stored coordinates), and the stored gradient array keeps the original
component's coordinate metadata, dimension labels, and coordinate-grid shape. -/
theorem C7_custom_grid (m : JaxCustomMedium) (fwd adj : FieldData) (sb : Bound) (w : ℚ)
    (h : (m.store_vjp fwd adj sb w).isSome = true) (a : Axis3) :
    customVjpComponent m fwd adj a =
      some (((m.store_vjp fwd adj sb w).get h).eps_dataset a) ∧
    (((m.store_vjp fwd adj sb w).get h).eps_dataset a).coords =
      (m.eps_dataset a).coords ∧
    (((m.store_vjp fwd adj sb w).get h).eps_dataset a).dims = (m.eps_dataset a).dims ∧
    ((((m.store_vjp fwd adj sb w).get h).eps_dataset a).dims).map
        (fun d => ((((m.store_vjp fwd adj sb w).get h).eps_dataset a).coords d).length) =
      ((m.eps_dataset a).dims).map (fun d => ((m.eps_dataset a).coords d).length) := by
  obtain ⟨r, hr⟩ := Option.isSome_iff_exists.mp h
  have hget : (m.store_vjp fwd adj sb w).get h = r := by simp [hr]
  rw [hget]
  unfold JaxCustomMedium.store_vjp at hr
  simp only [Option.bind_eq_bind, Option.bind_eq_some] at hr
  obtain ⟨gx, hgx, gy, hgy, gz, hgz, hpure⟩ := hr
  obtain rfl := Option.some.inj hpure
  cases a with
  | x =>
    obtain ⟨hd, hc⟩ := customVjpComponent_meta hgx
    exact ⟨hgx, hc, hd, by rw [hd, hc]⟩
  | y =>
    obtain ⟨hd, hc⟩ := customVjpComponent_meta hgy
    exact ⟨hgy, hc, hd, by rw [hd, hc]⟩
  | z =>
    obtain ⟨hd, hc⟩ := customVjpComponent_meta hgz
    exact ⟨hgz, hc, hd, by rw [hd, hc]⟩

/-- The permittivity-dataset component array of the custom-medium witness: one
non-degenerate axis `x` with two samples, degenerate `y`, `z` (one sample) and a
single frequency. -/
def epsArrC7w : DataArr :=
  ⟨[Dim.x, Dim.y, Dim.z, Dim.f],
   fun d => match d with
     | Dim.x => [0, 1]
     | Dim.f => [5]
     | _ => [0],
   fun _ => ⟨1, 0⟩⟩

/-- A constant field array on the witness grid. -/
def fieldArrC7w (c : CRat) : DataArr :=
  ⟨[Dim.x, Dim.y, Dim.z, Dim.f],
   fun d => match d with
     | Dim.x => [0, 1]
     | Dim.f => [5]
     | _ => [0],
   fun _ => c⟩

def mC7w : JaxCustomMedium := ⟨fun _ => epsArrC7w, some "cust"⟩

def fwdC7w : FieldData := ⟨pointBound, fun _ => fieldArrC7w ⟨1, 0⟩⟩

def adjC7w : FieldData := ⟨pointBound, fun _ => fieldArrC7w ⟨2, 0⟩⟩

lemma C7w_isSome : (mC7w.store_vjp fwdC7w adjC7w pointBound 1).isSome = true := rfl

/-- Witness for `C7_custom_grid`: a custom medium with a degenerate `y`, `z` and `f`
axis and a two-sample `x` axis admits a successful gradient whose components keep the
original coordinate metadata and shape. -/
theorem C7_custom_grid_witness :
    ((mC7w.store_vjp fwdC7w adjC7w pointBound 1).isSome = true) ∧
    (customVjpComponent mC7w fwdC7w adjC7w Axis3.x =
        some (((mC7w.store_vjp fwdC7w adjC7w pointBound 1).get C7w_isSome).eps_dataset
          Axis3.x) ∧
      (((mC7w.store_vjp fwdC7w adjC7w pointBound 1).get C7w_isSome).eps_dataset
          Axis3.x).coords = (mC7w.eps_dataset Axis3.x).coords ∧
      (((mC7w.store_vjp fwdC7w adjC7w pointBound 1).get C7w_isSome).eps_dataset
          Axis3.x).dims = (mC7w.eps_dataset Axis3.x).dims ∧
      ((((mC7w.store_vjp fwdC7w adjC7w pointBound 1).get C7w_isSome).eps_dataset
            Axis3.x).dims).map
          (fun d => ((((mC7w.store_vjp fwdC7w adjC7w pointBound 1).get
            C7w_isSome).eps_dataset Axis3.x).coords d).length) =
        ((mC7w.eps_dataset Axis3.x).dims).map
          (fun d => ((mC7w.eps_dataset Axis3.x).coords d).length)) :=
  ⟨C7w_isSome, C7_custom_grid mC7w fwdC7w adjC7w pointBound 1 C7w_isSome Axis3.x⟩

/-! ## Claim C10 -/

/-- Claim C10: `JaxCustomMedium.store_vjp` never reads its `sim_bounds` and `wvl_mat`
arguments: two calls agreeing on the medium and the field data return equal gradient
datasets for arbitrary different simulation bounds and wavelengths (the custom-medium
differential volume element is the constant `1.0`). -/
theorem C10_custom_vjp_ignores_bounds (m : JaxCustomMedium) (fwd adj : FieldData)
    (sb1 sb2 : Bound) (w1 w2 : ℚ) :
    m.store_vjp fwd adj sb1 w1 = m.store_vjp fwd adj sb2 w2 := rfl

/-! ## Claim C8 -/

/-- Claim C8: for each medium variant, the registered tree-flatten followed by
tree-unflatten reconstructs an object equal to the original, for all isotropic,
anisotropic, and spatially-varying media (including custom media with degenerate
length-one coordinate axes, over which this statement also quantifies). -/
theorem C8_flatten_roundtrip :
    (∀ m : JaxMedium,
      JaxMedium.tree_unflatten (JaxMedium.tree_flatten m).2 (JaxMedium.tree_flatten m).1 =
        m) ∧
    (∀ m : JaxAnisotropicMedium,
      JaxAnisotropicMedium.tree_unflatten (JaxAnisotropicMedium.tree_flatten m).2
        (JaxAnisotropicMedium.tree_flatten m).1 = m) ∧
    (∀ m : JaxCustomMedium,
      JaxCustomMedium.tree_unflatten (JaxCustomMedium.tree_flatten m).2
        (JaxCustomMedium.tree_flatten m).1 = m) := by
  refine ⟨fun m => rfl, fun m => rfl, fun m => ?_⟩
  obtain ⟨eps, nm⟩ := m
  unfold JaxCustomMedium.tree_unflatten JaxCustomMedium.tree_flatten
  congr 1
  funext a
  cases a <;> rfl


/-! ## Claim C9 -/

def cexMntC9 : Mnt3d := ⟨(0, 0, 0), (1, 1, 1), MonitorKind.unsupported⟩

/-- Counterexample to claim C9 as stated: a simulation whose only monitor is of an
unsupported kind does not get that monitor silently skipped — `old_json_monitors`
still emits one record for it (the base name/position fields with no kind payload,
because `mnt_list.append(mnt)` runs outside every `isinstance` branch), so the emitted
monitor list is not empty and contains a malformed entry. -/
theorem C9_counterexample :
    cexMntC9.kind = MonitorKind.unsupported ∧
    old_json_monitors 1 [("m0", cexMntC9)] =
      [{ name := "m0", x_cent := 0, y_cent := 0, z_cent := 0,
         x_span := 1, y_span := 1, z_span := 1, payload := none }] :=
  ⟨rfl, rfl⟩

/-- Claim C9 (amended): only unsupported geometry kinds are silently skipped —
`old_json_structures` emits exactly one well-formed record per supported geometry,
keyed by the original structure index. Monitors always emit one record each, an
unsupported kind producing a record with no kind-specific payload. A source of
unsupported kind re-appends the previously emitted source record (a duplicate), or
fails with an unbound-variable error when it comes first. -/
theorem C9_amended_export :
    (∀ (n : ℕ) (structs : List Struct3d),
        old_json_structures n structs =
          (List.enumFrom n structs).filterMap (fun p => mkStructJson p.1 p.2)) ∧
    (∀ (rt : ℚ) (ms : List (String × Mnt3d)),
        (old_json_monitors rt ms).length = ms.length) ∧
    (∀ (nm : String) (t : SourceTime) (rest : List (String × Src3d)),
        old_json_sources ((nm, ⟨t, SourceKind.unsupported⟩) :: rest) = none) ∧
    (∀ (n1 n2 : String) (amp : ℚ) (g : GaussianPulseData) (c s : Vec3)
        (pol : JM × Axis3) (t2 : SourceTime),
        old_json_sources
            [(n1, ⟨⟨amp, SourceTimeShape.gaussianPulse g⟩, SourceKind.volumeSource c s pol⟩),
             (n2, ⟨t2, SourceKind.unsupported⟩)] =
          some [⟨n1, ⟨g.freq0 * (1 / 10 ^ 12), g.fwidth * (1 / 10 ^ 12), g.offset, g.phase⟩,
                  c, s, componentName pol, amp⟩,
                ⟨n1, ⟨g.freq0 * (1 / 10 ^ 12), g.fwidth * (1 / 10 ^ 12), g.offset, g.phase⟩,
                  c, s, componentName pol, amp⟩]) := by
  refine ⟨?_, ?_, ?_, ?_⟩
  · intro n structs
    induction structs generalizing n with
    | nil => rfl
    | cons sh rest ih =>
      simp only [old_json_structures, List.enumFrom, List.filterMap_cons]
      cases mkStructJson n sh <;> simp [ih]
  · intro rt ms
    simp [old_json_monitors]
  · intro nm t rest
    rfl
  · intro n1 n2 amp g c s pol t2
    rfl

end ClaimTheorems
